import Mathlib

/-!
Verification of the recollector_ai repository: a point-cloud viewer
(360view_direct.py) and a Flask proxy for an image-to-3D service
(app_flask.py), shallowly embedded in Lean 4.
-/

namespace Viewer

/-! Embedding of src/360view_direct.py.

The point cloud is a list of positions plus an optional parallel list of
colors.  numpy fancy indexing pts[idx] is modelled by mapping list lookup
over the index list; np.random.choice(len, n, replace=False) is a random
draw, modelled as an explicit index-list parameter whose numpy-guaranteed
properties (length n, entries below len, no duplicates) become hypotheses
of the theorems. -/

/-- numpy fancy indexing xs[idx]: pick the element at each index. -/
def npIndex {α : Type} [Inhabited α] (xs : List α) (idx : List Nat) : List α :=
  idx.map (fun i => xs.getD i default)

/-- Embedding of downsample(pts, cols, max_points) from 360view_direct.py:
if len(pts) > max_points, keep the rows of the random index draw idx,
applied to positions and (when present) colors; otherwise return the
input unchanged. -/
def downsample {α β : Type} [Inhabited α] [Inhabited β]
    (pts : List α) (cols : Option (List β)) (maxPoints : Nat)
    (idx : List Nat) : List α × Option (List β) :=
  if maxPoints < pts.length then
    (npIndex pts idx, cols.map (fun cs => npIndex cs idx))
  else
    (pts, cols)

theorem npIndex_length {α : Type} [Inhabited α] (xs : List α) (idx : List Nat) :
    (npIndex xs idx).length = idx.length := by
  simp [npIndex]

theorem npIndex_getD {α : Type} [Inhabited α] (xs : List α) (idx : List Nat)
    (k : Nat) (hk : k < idx.length) :
    (npIndex xs idx).getD k default = xs.getD (idx.getD k 0) default := by
  simp only [npIndex]
  rw [List.getD_eq_get _ _ (by simpa using hk), List.get_map]
  congr 1
  rw [List.getD_eq_get _ _ hk]

theorem npIndex_nodup {α : Type} [Inhabited α] (xs : List α) (idx : List Nat)
    (hrange : ∀ i ∈ idx, i < xs.length) (hnd : idx.Nodup) (hxs : xs.Nodup) :
    (npIndex xs idx).Nodup := by
  refine List.Nodup.map_on ?_ hnd
  intro i hi j hj hij
  have hi' : i < xs.length := hrange i hi
  have hj' : j < xs.length := hrange j hj
  rw [List.getD_eq_get _ _ hi', List.getD_eq_get _ _ hj'] at hij
  have := (List.Nodup.get_inj_iff hxs).mp hij
  simpa using this

/-- C1: for a point cloud with M positions (optional parallel colors) and
target N: if M > N, downsample returns exactly N points picked by a
duplicate-free list of in-range indices, positions and colors indexed by
the same list (pairing preserved, and distinct points stay distinct);
if M <= N, downsample returns the input unchanged. -/
theorem downsample_spec {α β : Type} [Inhabited α] [Inhabited β]
    (pts : List α) (cols : Option (List β)) (maxPoints : Nat) (idx : List Nat)
    (hlen : idx.length = maxPoints)
    (hrange : ∀ i ∈ idx, i < pts.length)
    (hnd : idx.Nodup) :
    (maxPoints < pts.length →
      ∃ ids : List Nat,
        ids.Nodup ∧ ids.length = maxPoints ∧ (∀ i ∈ ids, i < pts.length) ∧
        (downsample pts cols maxPoints idx).1 = npIndex pts ids ∧
        (downsample pts cols maxPoints idx).2
          = cols.map (fun cs => npIndex cs ids) ∧
        (downsample pts cols maxPoints idx).1.length = maxPoints ∧
        (pts.Nodup → (downsample pts cols maxPoints idx).1.Nodup)) ∧
    (pts.length ≤ maxPoints →
      downsample pts cols maxPoints idx = (pts, cols)) := by
  constructor
  · intro h
    refine ⟨idx, hnd, hlen, hrange, ?_, ?_, ?_, ?_⟩
    · simp [downsample, h]
    · simp [downsample, h]
    · simp [downsample, h, npIndex_length, hlen]
    · intro hpts
      simp only [downsample, if_pos h]
      exact npIndex_nodup pts idx hrange hnd hpts
  · intro h
    simp [downsample, Nat.not_lt.mpr h]

/-- Witness for C1 at a concrete cloud of three points, two colors kept. -/
theorem downsample_spec_witness :
    2 < ([10, 20, 30] : List Nat).length ∧
    (downsample ([10, 20, 30] : List Nat) (some ([5, 6, 7] : List Nat))
        2 [2, 0]).1.length = 2 ∧
    downsample ([10, 20, 30] : List Nat) (some ([5, 6, 7] : List Nat))
        2 [2, 0] = ([30, 10], some [7, 5]) := by
  refine ⟨by decide, ?_, by decide⟩
  obtain ⟨ids, -, -, -, -, -, hlength, -⟩ :=
    (downsample_spec ([10, 20, 30] : List Nat) (some ([5, 6, 7] : List Nat))
      2 [2, 0] (by decide) (by decide) (by decide)).1 (by decide)
  exact hlength

/-! Geometry of show_open3d_viewer: 3-vectors over the reals model the
numpy float arrays, with the 1e-10 guard of the source kept explicit. -/

/-- A 3-component vector, modelling one row/column of the numpy arrays. -/
structure Vec3 where
  x : ℝ
  y : ℝ
  z : ℝ

theorem Vec3_ext_iff {a b : Vec3} : a = b ↔ a.x = b.x ∧ a.y = b.y ∧ a.z = b.z := by
  cases a
  cases b
  simp

/-- Embedding of the numpy negation pts = -pts. -/
def negV (v : Vec3) : Vec3 := ⟨-v.x, -v.y, -v.z⟩

/-- The viewer's point cloud: positions plus optional parallel colors. -/
structure PointCloud where
  points : List Vec3
  colors : Option (List Vec3)

/-- Embedding of the inside-view inversion in show_open3d_viewer
(pts = -pts when args.invert is set); colors are not touched. -/
def invertPoints (pc : PointCloud) : PointCloud :=
  { pc with points := pc.points.map negV }

/-- C9: applying the sign inversion twice returns the original positions
exactly (hence within floating-point tolerance) and inverting never
changes the colors. -/
theorem invert_involutive (pc : PointCloud) :
    invertPoints (invertPoints pc) = pc ∧
    (invertPoints pc).colors = pc.colors := by
  cases pc with
  | mk points colors =>
    refine ⟨?_, rfl⟩
    simp only [invertPoints, List.map_map]
    congr 1
    have hneg : (negV ∘ negV) = id := by
      funext v
      simp [negV, Function.comp]
    rw [hneg, List.map_id]

/-- Pinhole intrinsic as set by intrinsic.set_intrinsics in the source. -/
structure Intrinsic where
  width : ℝ
  height : ℝ
  fx : ℝ
  fy : ℝ
  cx : ℝ
  cy : ℝ

/-- Embedding of np.radians. -/
noncomputable def radians (deg : ℝ) : ℝ := deg * Real.pi / 180

/-- Embedding of focal_length = width / (2.0 * np.tan(np.radians(fov / 2.0))). -/
noncomputable def focal_length (fov width : ℝ) : ℝ :=
  width / (2 * Real.tan (radians (fov / 2)))

/-- Embedding of the set_intrinsics call in show_open3d_viewer: both focal
entries get the derived focal length and the principal point is the window
center. -/
noncomputable def viewer_intrinsic (fov width height : ℝ) : Intrinsic :=
  { width := width
    height := height
    fx := focal_length fov width
    fy := focal_length fov width
    cx := width / 2
    cy := height / 2 }

/-- C8: for 0 < fov < 180 the intrinsic focal length equals
width / (2 tan(fov/2 in radians)) and the principal point is half the
window dimensions; at fov = 90 and width = 1000 the focal length is 500. -/
theorem intrinsic_spec (fov width height : ℝ)
    (h0 : 0 < fov) (h180 : fov < 180) :
    (viewer_intrinsic fov width height).fx
        = width / (2 * Real.tan (fov / 2 * Real.pi / 180)) ∧
    (viewer_intrinsic fov width height).fy
        = (viewer_intrinsic fov width height).fx ∧
    (viewer_intrinsic fov width height).cx = width / 2 ∧
    (viewer_intrinsic fov width height).cy = height / 2 ∧
    (viewer_intrinsic 90 1000 height).fx = 500 := by
  refine ⟨rfl, rfl, rfl, rfl, ?_⟩
  show focal_length 90 1000 = 500
  rw [focal_length, show radians ((90 : ℝ) / 2) = Real.pi / 4 by
    rw [radians]; ring]
  rw [Real.tan_pi_div_four]
  norm_num

/-- Witness for C8 at fov = 90 degrees, window 1000 x 900. -/
theorem intrinsic_spec_witness :
    (0 : ℝ) < 90 ∧ (90 : ℝ) < 180 ∧
    (viewer_intrinsic 90 1000 900).fx = 500 :=
  ⟨by norm_num, by norm_num,
    (intrinsic_spec 90 1000 900 (by norm_num) (by norm_num)).2.2.2.2⟩

/-! Embedding of the per-frame callback lock_vertical_rotation registered
when --horizontal-only is set.  The numpy view semantics of the source
(up and forward alias columns of R until each column is overwritten)
leave the final columns exactly as written below. -/

/-- np.linalg.norm of a 3-vector. -/
noncomputable def norm3 (v : Vec3) : ℝ :=
  Real.sqrt (v.x ^ 2 + v.y ^ 2 + v.z ^ 2)

/-- np.cross of 3-vectors. -/
def cross3 (a b : Vec3) : Vec3 :=
  ⟨a.y * b.z - a.z * b.y, a.z * b.x - a.x * b.z, a.x * b.y - a.y * b.x⟩

/-- Componentwise division of a vector by a scalar, as numpy broadcasts it. -/
noncomputable def divV (v : Vec3) (t : ℝ) : Vec3 := ⟨v.x / t, v.y / t, v.z / t⟩

/-- The 1e-10 guard the source adds to denominators. -/
noncomputable def EPS : ℝ := 1 / 10 ^ 10

/-- Camera extrinsic: rotation columns (right, up, forward) plus the
translation column of the 4x4 matrix. -/
structure Extrinsic where
  right : Vec3
  up : Vec3
  fwd : Vec3
  trans : Vec3

theorem Extrinsic_ext_iff {a b : Extrinsic} :
    a = b ↔ a.right = b.right ∧ a.up = b.up ∧ a.fwd = b.fwd ∧ a.trans = b.trans := by
  cases a
  cases b
  simp

/-- Embedding of lock_vertical_rotation from 360view_direct.py: pin the
translation height to its value at activation, snap the up column to
(0, plus-or-minus 1, 0) keeping its sign, zero the vertical component of the
forward column and renormalize it with the 1e-10 guard, and rebuild the
right column as the guarded normalization of up cross forward. -/
noncomputable def lock_vertical_rotation (initialY : ℝ) (e : Extrinsic) : Extrinsic :=
  let upFixed : Vec3 := ⟨0, if e.up.y < 0 then -1 else 1, 0⟩
  let up1 : Vec3 := divV upFixed (norm3 upFixed)
  let fwd0 : Vec3 := ⟨e.fwd.x, 0, e.fwd.z⟩
  let fwd1 : Vec3 := divV fwd0 (norm3 fwd0 + EPS)
  let r0 : Vec3 := cross3 up1 fwd1
  let right1 : Vec3 := divV r0 (norm3 r0 + EPS)
  ⟨right1, up1, fwd1, ⟨e.trans.x, initialY, e.trans.z⟩⟩

/-- Componentwise closeness of two vectors. -/
def close3 (a b : Vec3) (tol : ℝ) : Prop :=
  |a.x - b.x| ≤ tol ∧ |a.y - b.y| ≤ tol ∧ |a.z - b.z| ≤ tol

theorem scaled_close (a c : ℝ) (ha : |a| ≤ 1) (hc : |c - 1| ≤ 1 / 10 ^ 9) :
    |a * c - a| ≤ 1 / 10 ^ 9 := by
  have h : a * c - a = a * (c - 1) := by ring
  rw [h, abs_mul]
  calc |a| * |c - 1| ≤ 1 * (1 / 10 ^ 9) :=
        mul_le_mul ha hc (abs_nonneg _) zero_le_one
  _ = 1 / 10 ^ 9 := by ring

theorem divV_close (v : Vec3) (d : ℝ)
    (hv : |v.x| ≤ 1 ∧ |v.y| ≤ 1 ∧ |v.z| ≤ 1)
    (hd : |1 / d - 1| ≤ 1 / 10 ^ 9) :
    close3 (divV v d) v (1 / 10 ^ 9) := by
  obtain ⟨h1, h2, h3⟩ := hv
  refine ⟨?_, ?_, ?_⟩
  · show |v.x / d - v.x| ≤ 1 / 10 ^ 9
    rw [div_eq_mul_one_div]
    exact scaled_close _ _ h1 hd
  · show |v.y / d - v.y| ≤ 1 / 10 ^ 9
    rw [div_eq_mul_one_div]
    exact scaled_close _ _ h2 hd
  · show |v.z / d - v.z| ≤ 1 / 10 ^ 9
    rw [div_eq_mul_one_div]
    exact scaled_close _ _ h3 hd

theorem eps_pos : (0 : ℝ) < EPS := by
  rw [EPS]
  norm_num

theorem one_add_eps_close : |1 / (1 + EPS) - 1| ≤ 1 / 10 ^ 9 := by
  rw [EPS, abs_le]
  constructor <;> norm_num

theorem one_add_eps_sq_close : |1 / (1 + EPS + EPS ^ 2) - 1| ≤ 1 / 10 ^ 9 := by
  rw [EPS, abs_le]
  constructor <;> norm_num

/-- On a level frame the lock reduces to scaling the forward and right
columns by the guarded normalization factors and leaving up and the
translation as they are. -/
theorem lock_level_eq (e : Extrinsic) (initialY s : ℝ)
    (hs : s = 1 ∨ s = -1)
    (hup : e.up = ⟨0, s, 0⟩)
    (hfy : e.fwd.y = 0)
    (hfn : e.fwd.x ^ 2 + e.fwd.z ^ 2 = 1)
    (hr : e.right = cross3 e.up e.fwd)
    (hty : e.trans.y = initialY) :
    lock_vertical_rotation initialY e =
      ⟨divV e.right (1 + EPS + EPS ^ 2), e.up, divV e.fwd (1 + EPS), e.trans⟩ := by
  obtain ⟨r, u, f, t⟩ := e
  obtain ⟨fx, fy, fz⟩ := f
  obtain ⟨tx, ty, tz⟩ := t
  simp only at hup hfy hfn hr hty
  subst hup hfy hty hr
  have h1p : (0 : ℝ) < 1 + EPS := by
    have := eps_pos
    linarith
  have h1p' : (1 : ℝ) + EPS ≠ 0 := ne_of_gt h1p
  rcases hs with rfl | rfl
  · have hnup : norm3 ⟨0, 1, 0⟩ = 1 := by
      rw [norm3]
      norm_num
    have hnfwd : norm3 ⟨fx, 0, fz⟩ = 1 := by
      rw [norm3]
      rw [show fx ^ 2 + (0 : ℝ) ^ 2 + fz ^ 2 = 1 by rw [← hfn]; ring]
      exact Real.sqrt_one
    have hcross : cross3 (divV ⟨0, 1, 0⟩ (norm3 ⟨0, 1, 0⟩))
        (divV ⟨fx, 0, fz⟩ (norm3 ⟨fx, 0, fz⟩ + EPS))
        = ⟨fz / (1 + EPS), 0, -(fx / (1 + EPS))⟩ := by
      rw [hnup, hnfwd, cross3, divV, divV]
      rw [Vec3_ext_iff]
      refine ⟨by ring, by ring, by ring⟩
    have hncross : norm3 ⟨fz / (1 + EPS), 0, -(fx / (1 + EPS))⟩ = 1 / (1 + EPS) := by
      rw [norm3]
      rw [show (fz / (1 + EPS)) ^ 2 + (0 : ℝ) ^ 2 + (-(fx / (1 + EPS))) ^ 2
          = (1 / (1 + EPS)) ^ 2 by
        field_simp
        rw [← hfn]; ring]
      exact Real.sqrt_sq (by positivity)
    have hden : (0 : ℝ) < 1 / (1 + EPS) + EPS :=
      add_pos (div_pos one_pos h1p) eps_pos
    have hden' : (1 : ℝ) / (1 + EPS) + EPS ≠ 0 := ne_of_gt hden
    have hdd : (1 : ℝ) + EPS + EPS ^ 2 ≠ 0 := by
      have he := eps_pos
      nlinarith
    rw [lock_vertical_rotation]
    simp only
    rw [if_neg (by norm_num)]
    rw [hcross, hncross]
    rw [Extrinsic_ext_iff]
    refine ⟨?_, ?_, ?_, rfl⟩
    · rw [Vec3_ext_iff]
      simp only [divV, cross3]
      have hkey : (1 + EPS) * (1 / (1 + EPS) + EPS) = 1 + EPS + EPS ^ 2 := by
        rw [mul_add, mul_one_div, div_self h1p']
        ring
      refine ⟨?_, ?_, ?_⟩
      · rw [div_div, hkey, div_eq_div_iff hdd hdd]
        ring
      · rw [div_eq_div_iff hden' hdd]
        ring
      · rw [neg_div, div_div, hkey, ← neg_div, div_eq_div_iff hdd hdd]
        ring
    · rw [hnup]
      rw [Vec3_ext_iff]
      simp only [divV]
      norm_num
    · rw [hnfwd]
  · have hnup : norm3 ⟨0, -1, 0⟩ = 1 := by
      rw [norm3]
      norm_num
    have hnfwd : norm3 ⟨fx, 0, fz⟩ = 1 := by
      rw [norm3]
      rw [show fx ^ 2 + (0 : ℝ) ^ 2 + fz ^ 2 = 1 by rw [← hfn]; ring]
      exact Real.sqrt_one
    have hcross : cross3 (divV ⟨0, -1, 0⟩ (norm3 ⟨0, -1, 0⟩))
        (divV ⟨fx, 0, fz⟩ (norm3 ⟨fx, 0, fz⟩ + EPS))
        = ⟨-(fz / (1 + EPS)), 0, fx / (1 + EPS)⟩ := by
      rw [hnup, hnfwd, cross3, divV, divV]
      rw [Vec3_ext_iff]
      refine ⟨by ring, by ring, by ring⟩
    have hncross : norm3 ⟨-(fz / (1 + EPS)), 0, fx / (1 + EPS)⟩ = 1 / (1 + EPS) := by
      rw [norm3]
      rw [show (-(fz / (1 + EPS))) ^ 2 + (0 : ℝ) ^ 2 + (fx / (1 + EPS)) ^ 2
          = (1 / (1 + EPS)) ^ 2 by
        field_simp
        rw [← hfn]; ring]
      exact Real.sqrt_sq (by positivity)
    have hden : (0 : ℝ) < 1 / (1 + EPS) + EPS :=
      add_pos (div_pos one_pos h1p) eps_pos
    have hden' : (1 : ℝ) / (1 + EPS) + EPS ≠ 0 := ne_of_gt hden
    have hdd : (1 : ℝ) + EPS + EPS ^ 2 ≠ 0 := by
      have he := eps_pos
      nlinarith
    rw [lock_vertical_rotation]
    simp only
    rw [if_pos (by norm_num)]
    rw [hcross, hncross]
    rw [Extrinsic_ext_iff]
    refine ⟨?_, ?_, ?_, rfl⟩
    · rw [Vec3_ext_iff]
      simp only [divV, cross3]
      have hkey : (1 + EPS) * (1 / (1 + EPS) + EPS) = 1 + EPS + EPS ^ 2 := by
        rw [mul_add, mul_one_div, div_self h1p']
        ring
      refine ⟨?_, ?_, ?_⟩
      · rw [neg_div, div_div, hkey, ← neg_div, div_eq_div_iff hdd hdd]
        ring
      · rw [div_eq_div_iff hden' hdd]
        ring
      · rw [div_div, hkey, div_eq_div_iff hdd hdd]
        ring
    · rw [hnup]
      rw [Vec3_ext_iff]
      simp only [divV]
      norm_num
    · rw [hnfwd]

/-- C2: on an extrinsic whose frame is already horizontally level (up
column (0, s, 0) with s = 1 or s = -1, forward column horizontal and unit,
right column their cross product, translation height at the stored initial
height) the per-frame lock changes every matrix entry by at most 1e-9:
the correction is a no-op up to floating-point tolerance. -/
theorem lock_level_noop (e : Extrinsic) (initialY s : ℝ)
    (hs : s = 1 ∨ s = -1)
    (hup : e.up = ⟨0, s, 0⟩)
    (hfy : e.fwd.y = 0)
    (hfn : e.fwd.x ^ 2 + e.fwd.z ^ 2 = 1)
    (hr : e.right = cross3 e.up e.fwd)
    (hty : e.trans.y = initialY) :
    close3 (lock_vertical_rotation initialY e).right e.right (1 / 10 ^ 9) ∧
    close3 (lock_vertical_rotation initialY e).up e.up (1 / 10 ^ 9) ∧
    close3 (lock_vertical_rotation initialY e).fwd e.fwd (1 / 10 ^ 9) ∧
    (lock_vertical_rotation initialY e).trans = e.trans := by
  have hsabs : |s| = 1 := by
    rcases hs with rfl | rfl <;> norm_num
  have hfx : |e.fwd.x| ≤ 1 := by
    have h2 : e.fwd.x ^ 2 ≤ 1 := by nlinarith [sq_nonneg e.fwd.z]
    exact (sq_le_one_iff_abs_le_one _).mp h2
  have hfz : |e.fwd.z| ≤ 1 := by
    have h2 : e.fwd.z ^ 2 ≤ 1 := by nlinarith [sq_nonneg e.fwd.x]
    exact (sq_le_one_iff_abs_le_one _).mp h2
  rw [lock_level_eq e initialY s hs hup hfy hfn hr hty]
  refine ⟨?_, ?_, ?_, rfl⟩
  · show close3 (divV e.right (1 + EPS + EPS ^ 2)) e.right (1 / 10 ^ 9)
    refine divV_close _ _ ⟨?_, ?_, ?_⟩ one_add_eps_sq_close
    · rw [hr, hup]
      simp only [cross3]
      rw [show s * e.fwd.z - 0 * e.fwd.y = s * e.fwd.z by ring, abs_mul,
        hsabs, one_mul]
      exact hfz
    · rw [hr, hup]
      simp only [cross3]
      rw [show 0 * e.fwd.x - 0 * e.fwd.z = (0 : ℝ) by ring, abs_zero]
      norm_num
    · rw [hr, hup]
      simp only [cross3]
      rw [show 0 * e.fwd.y - s * e.fwd.x = -(s * e.fwd.x) by ring, abs_neg,
        abs_mul, hsabs, one_mul]
      exact hfx
  · show close3 e.up e.up (1 / 10 ^ 9)
    refine ⟨?_, ?_, ?_⟩ <;>
      · rw [sub_self, abs_zero]
        norm_num
  · show close3 (divV e.fwd (1 + EPS)) e.fwd (1 / 10 ^ 9)
    refine divV_close _ _ ⟨hfx, ?_, hfz⟩ one_add_eps_close
    rw [hfy, abs_zero]
    norm_num

/-- Witness for C2 at the identity-oriented level frame sitting at height 5. -/
theorem lock_level_noop_witness :
    close3 (lock_vertical_rotation 5
        ⟨⟨1, 0, 0⟩, ⟨0, 1, 0⟩, ⟨0, 0, 1⟩, ⟨0, 5, 0⟩⟩).right ⟨1, 0, 0⟩ (1 / 10 ^ 9) ∧
    close3 (lock_vertical_rotation 5
        ⟨⟨1, 0, 0⟩, ⟨0, 1, 0⟩, ⟨0, 0, 1⟩, ⟨0, 5, 0⟩⟩).up ⟨0, 1, 0⟩ (1 / 10 ^ 9) ∧
    close3 (lock_vertical_rotation 5
        ⟨⟨1, 0, 0⟩, ⟨0, 1, 0⟩, ⟨0, 0, 1⟩, ⟨0, 5, 0⟩⟩).fwd ⟨0, 0, 1⟩ (1 / 10 ^ 9) ∧
    (lock_vertical_rotation 5
        ⟨⟨1, 0, 0⟩, ⟨0, 1, 0⟩, ⟨0, 0, 1⟩, ⟨0, 5, 0⟩⟩).trans = ⟨0, 5, 0⟩ :=
  lock_level_noop ⟨⟨1, 0, 0⟩, ⟨0, 1, 0⟩, ⟨0, 0, 1⟩, ⟨0, 5, 0⟩⟩ 5 1
    (Or.inl rfl) rfl rfl (by norm_num)
    (by rw [cross3, Vec3_ext_iff]; norm_num) rfl

end Viewer

namespace Proxy

/-! Embedding of src/app_flask.py.

HTTP bodies are modelled structurally: a request is multipart (optional
uploaded file plus string form fields), JSON (optional typed fields), or
some other content type.  The remote Meshy service, base64 codec and GLB
conversion library are external collaborators, passed in as function
parameters; each handler returns its HTTP status, its response body and
the list of remote calls it issued, in order. -/

/-- A multipart file upload: filename and raw bytes. -/
structure UploadedFile where
  filename : String
  content : List Nat
deriving DecidableEq

/-- The JSON body fields read by process_image. -/
structure JsonBody where
  image_base64 : Option String := none
  image_url : Option String := none
  enable_pbr : Option Bool := none
  should_remesh : Option Bool := none
  should_texture : Option Bool := none
  ai_model : Option String := none
deriving DecidableEq

/-- The multipart form fields read by process_image (raw strings). -/
structure FormBody where
  enable_pbr : Option String := none
  should_remesh : Option String := none
  should_texture : Option String := none
  ai_model : Option String := none
deriving DecidableEq

/-- A request body as the content-type dispatch in process_image sees it:
multipart/form-data, application/json, or anything else. -/
inductive ReqBody where
  | multipart (file : Option UploadedFile) (form : FormBody)
  | jsonBody (j : JsonBody)
  | other
deriving DecidableEq

/-- The payload process_image posts to the Meshy create endpoint. -/
structure MeshyPayload where
  image_url : String
  enable_pbr : Bool
  should_remesh : Bool
  should_texture : Bool
  ai_model : String
deriving DecidableEq

/-- One remote HTTP call issued by a handler. -/
inductive RemoteCall where
  | createJob (payload : MeshyPayload)
  | statusCheck (taskId : String)
  | fetchModel (url : String)
deriving DecidableEq

/-- The model_urls object of a Meshy status response. -/
structure ModelUrls where
  glb : Option String := none
deriving DecidableEq

/-- Response of the Meshy create call, as the handler reads it. -/
structure CreateResp where
  ok : Bool
  statusCode : Nat
  result : Option String := none
  detail : String := ""
deriving DecidableEq

/-- Response of the Meshy status call, as the handlers read it. -/
structure StatusResp where
  ok : Bool
  statusCode : Nat
  status : Option String := none
  progress : Option Int := none
  message : Option String := none
  model_urls : Option ModelUrls := none
  detail : String := ""
deriving DecidableEq

/-- The JSON/file response bodies the three handlers can produce. -/
inductive RespBody where
  | err (msg : String)
  | errDetail (msg : String) (detail : String)
  | errAllowed (msg : String) (allowed : List String)
  | errStatus (msg : String) (st : Option String)
  | task (taskId : String)
  | statusInfo (st : Option String) (progress : Option Int)
      (message : Option String) (modelUrls : Option ModelUrls)
  | fileStream (bytes : List Nat) (mimetype : String) (name : String)
deriving DecidableEq

/-- Result of the process_image handler: HTTP status, body, remote calls
issued, and the task metadata written by _save_meta (if any). -/
structure TaskMeta where
  task_id : String
  original_filename : Option String
  enable_pbr : Bool
  should_remesh : Bool
  should_texture : Bool
  ai_model : String
deriving DecidableEq

structure ProcessResult where
  status : Nat
  body : RespBody
  calls : List RemoteCall
  savedMeta : Option TaskMeta
deriving DecidableEq

/-- Result of the get_status / get_result handlers. -/
structure HandlerResult where
  status : Nat
  body : RespBody
  calls : List RemoteCall
deriving DecidableEq

/-- Python str.lower modelled characterwise (String.toLower does the same
but through an accumulator that blocks kernel evaluation). -/
def str_lower (s : String) : String := String.mk (s.data.map Char.toLower)

/-- Python truthiness of an optional string: None and the empty string
are falsy. -/
def falsyStr (o : Option String) : Bool :=
  match o with
  | none => true
  | some s => s = ""

/-- The MESHY_API_KEY guard of _meshy_headers: unset or empty is missing. -/
def keyMissing (apiKey : Option String) : Bool :=
  falsyStr apiKey

/-- The RuntimeError message _meshy_headers raises without a key, which
the handlers surface as a 500 body. -/
def missingKeyMsg : String :=
  "MESHY_API_KEY가 설정되지 않았습니다. 환경 변수나 .env 파일에 키를 추가해주세요."

/-- The 400 message of process_image when no image source is given. -/
def noImageMsg : String :=
  "No image provided. Use multipart 'image' or JSON 'image_base64'/'image_url'."

/-- Multipart flag parsing in get_flag: absent means the default True,
a present raw string is lowercased and compared against the four
accepted truthy spellings. -/
def parse_form_flag (v : Option String) : Bool :=
  match v with
  | none => true
  | some s => ["1", "true", "on", "yes"].contains (str_lower s)

/-- The get_flag helper of process_image (default True): JSON bodies read
the field directly, multipart bodies parse the raw form string, and any
other content type falls back to the default. -/
def get_flag (body : ReqBody) (selJson : JsonBody → Option Bool)
    (selForm : FormBody → Option String) : Bool :=
  match body with
  | .jsonBody j => (selJson j).getD true
  | .multipart _ form => parse_form_flag (selForm form)
  | .other => true

/-- The ai_model lookup of process_image with its default. -/
def raw_ai_model (body : ReqBody) : String :=
  match body with
  | .jsonBody j => j.ai_model.getD "latest"
  | .multipart _ form => form.ai_model.getD "latest"
  | .other => "latest"

/-- The ai_model validation of process_image: anything outside the two
accepted names silently becomes latest. -/
def normalize_ai_model (s : String) : String :=
  if s = "latest" ∨ s = "meshy-5" then s else "latest"

/-- The data-URI prefix stripping of process_image: when the base64 string
contains a comma, everything up to and including the first comma is
discarded (Python b64.split(",", 1)[1]). -/
def strip_b64 (s : String) : String :=
  if ',' ∈ s.data then
    String.mk ((s.data.dropWhile (fun c => c ≠ ',')).tail)
  else s

/-- The image-source extraction of process_image: none encodes the 415
unsupported-content-type branch; otherwise the triple is
(image_bytes, image_data_url, original_filename) just before the
no-image check. -/
def parse_image (b64decode : String → List Nat) (body : ReqBody) :
    Option (Option (List Nat) × Option String × Option String) :=
  match body with
  | .multipart file _ =>
      match file with
      | some f =>
          if f.filename ≠ "" then some (some f.content, none, some f.filename)
          else some (none, none, none)
      | none => some (none, none, none)
  | .jsonBody j =>
      if ¬ falsyStr j.image_base64 then
        some (some (b64decode (strip_b64 (j.image_base64.getD ""))), none, none)
      else if ¬ falsyStr j.image_url then
        some (none, j.image_url, none)
      else
        some (none, none, none)
  | .other => none

/-- The tail of process_image after image parsing: the no-image 400 check,
the data-URI wrapping of raw bytes, the _meshy_headers credential check,
the Meshy create call and the meta write. -/
def process_image_core (apiKey : Option String)
    (b64encode : List Nat → String)
    (create : MeshyPayload → CreateResp)
    (pbr remesh texture : Bool) (ai : String)
    (parsed : Option (Option (List Nat) × Option String × Option String)) :
    ProcessResult :=
  match parsed with
  | none => ⟨415, .err "Unsupported content type", [], none⟩
  | some (imageBytes, dataUrl0, origName) =>
    if imageBytes = none ∧ dataUrl0 = none then
      ⟨400, .err noImageMsg, [], none⟩
    else
      let dataUrl :=
        match dataUrl0, imageBytes with
        | some u, _ => u
        | none, some bs => "data:image/png;base64," ++ b64encode bs
        | none, none => ""
      if keyMissing apiKey then
        ⟨500, .err missingKeyMsg, [], none⟩
      else
        let payload : MeshyPayload := ⟨dataUrl, pbr, remesh, texture, ai⟩
        let r := create payload
        if ¬ r.ok then
          ⟨r.statusCode, .errDetail "Meshy create failed" r.detail,
            [.createJob payload], none⟩
        else
          match r.result with
          | none => ⟨502, .errDetail "Invalid Meshy response" r.detail,
              [.createJob payload], none⟩
          | some tid =>
            if tid = "" then
              ⟨502, .errDetail "Invalid Meshy response" r.detail,
                [.createJob payload], none⟩
            else
              ⟨202, .task tid, [.createJob payload],
                some ⟨tid, origName, pbr, remesh, texture, ai⟩⟩

/-- Embedding of the POST /api/process-image handler. -/
def process_image (apiKey : Option String)
    (b64decode : String → List Nat) (b64encode : List Nat → String)
    (create : MeshyPayload → CreateResp)
    (body : ReqBody) : ProcessResult :=
  process_image_core apiKey b64encode create
    (get_flag body (fun j => j.enable_pbr) (fun f => f.enable_pbr))
    (get_flag body (fun j => j.should_remesh) (fun f => f.should_remesh))
    (get_flag body (fun j => j.should_texture) (fun f => f.should_texture))
    (normalize_ai_model (raw_ai_model body))
    (parse_image b64decode body)

/-- Embedding of the GET /api/status/(task_id) handler. -/
def get_status (apiKey : Option String)
    (statusOracle : String → StatusResp) (taskId : String) : HandlerResult :=
  if keyMissing apiKey then
    ⟨500, .err missingKeyMsg, []⟩
  else
    let r := statusOracle taskId
    if ¬ r.ok then
      ⟨r.statusCode, .errDetail "Meshy status failed" r.detail,
        [.statusCheck taskId]⟩
    else
      ⟨200, .statusInfo r.status r.progress r.message r.model_urls,
        [.statusCheck taskId]⟩

/-- The format query-parameter normalization of get_result:
(request.args.get("format") or "glb").lower(). -/
def normalize_format (fmt : Option String) : String :=
  match fmt with
  | none => str_lower "glb"
  | some s => if s = "" then str_lower "glb" else str_lower s

/-- The allowed download formats of get_result. -/
def allowed_formats : List String := ["glb", "obj", "ply"]

/-- Embedding of the GET /api/result/(task_id) handler.  convert models
trimesh load + export: an Except value distinguishes conversion failure
from the produced bytes. -/
def get_result (apiKey : Option String)
    (statusOracle : String → StatusResp)
    (fetch : String → List Nat)
    (convert : List Nat → String → Except String (List Nat))
    (taskId : String) (fmtParam : Option String) : HandlerResult :=
  let fmt := normalize_format fmtParam
  if ¬ allowed_formats.contains fmt then
    ⟨400, .errAllowed "Unsupported format" allowed_formats, []⟩
  else if keyMissing apiKey then
    ⟨500, .err missingKeyMsg, []⟩
  else
    let s := statusOracle taskId
    if ¬ s.ok then
      ⟨s.statusCode, .err "Failed to get status from Meshy", [.statusCheck taskId]⟩
    else if s.status ≠ some "SUCCEEDED" then
      ⟨409, .errStatus "Job not completed" s.status, [.statusCheck taskId]⟩
    else
      match (s.model_urls.getD {}).glb with
      | none => ⟨502, .err "GLB URL missing in Meshy response", [.statusCheck taskId]⟩
      | some url =>
        if url = "" then
          ⟨502, .err "GLB URL missing in Meshy response", [.statusCheck taskId]⟩
        else
          let bytes := fetch url
          if fmt = "glb" then
            ⟨200, .fileStream bytes "model/gltf-binary" (taskId ++ ".glb"),
              [.statusCheck taskId, .fetchModel url]⟩
          else
            match convert bytes fmt with
            | .error msg =>
                ⟨500, .errDetail ("Conversion to " ++ fmt ++ " failed") msg,
                  [.statusCheck taskId, .fetchModel url]⟩
            | .ok out =>
                ⟨200, .fileStream out "application/octet-stream"
                    (taskId ++ "." ++ fmt),
                  [.statusCheck taskId, .fetchModel url]⟩

end Proxy

namespace Proxy

theorem drop_comma_split (l : List Char) (h : ',' ∈ l) :
    ∃ pre : List Char,
      l = pre ++ ',' :: (l.dropWhile (fun c => c ≠ ',')).tail ∧ ',' ∉ pre := by
  induction l with
  | nil => cases h
  | cons c cs ih =>
    by_cases hc : c = ','
    · subst hc
      refine ⟨[], ?_, by simp⟩
      simp [List.dropWhile]
    · have hmem : ',' ∈ cs := by
        rcases List.mem_cons.mp h with h1 | h1
        · exact absurd h1.symm hc
        · exact h1
      obtain ⟨pre, heq, hnot⟩ := ih hmem
      refine ⟨c :: pre, ?_, ?_⟩
      · rw [List.dropWhile_cons, if_pos (by simp [hc])]
        simp only [List.cons_append]
        exact congrArg (List.cons c) heq
      · intro hin
        rcases List.mem_cons.mp hin with h1 | h1
        · exact hc h1.symm
        · exact hnot h1

theorem strip_b64_split (s : String) (h : ',' ∈ s.data) :
    ∃ pre : List Char,
      s.data = pre ++ ',' :: (strip_b64 s).data ∧ ',' ∉ pre := by
  rw [strip_b64, if_pos h]
  exact drop_comma_split s.data h


/-- C3: a POST /api/process-image whose content type is neither multipart
nor JSON is rejected with a 4xx client-input error (415) before any remote
call, and any multipart or JSON request carrying no image source (no file,
no image_base64, no image_url, empty values counting as absent) gets a 400
with an explanatory error body and no remote call. -/
theorem process_image_bad_request
    (apiKey : Option String) (dec : String → List Nat) (enc : List Nat → String)
    (create : MeshyPayload → CreateResp) :
    (∀ (file : Option UploadedFile) (form : FormBody),
        (file = none ∨ ∃ f, file = some f ∧ f.filename = "") →
        process_image apiKey dec enc create (.multipart file form)
          = ⟨400, .err noImageMsg, [], none⟩) ∧
    (∀ j : JsonBody,
        falsyStr j.image_base64 = true → falsyStr j.image_url = true →
        process_image apiKey dec enc create (.jsonBody j)
          = ⟨400, .err noImageMsg, [], none⟩) ∧
    (process_image apiKey dec enc create .other
        = ⟨415, .err "Unsupported content type", [], none⟩ ∧
      400 ≤ 415 ∧ 415 < 500) := by
  refine ⟨?_, ?_, rfl, by norm_num, by norm_num⟩
  · rintro file form (rfl | ⟨f, rfl, hf⟩)
    · rfl
    · simp [process_image, parse_image, process_image_core, hf]
  · intro j hb hu
    simp [process_image, parse_image, process_image_core, hb, hu]

/-- Witness for C3 at the empty JSON body. -/
theorem process_image_bad_request_witness :
    falsyStr (JsonBody.image_base64 {}) = true ∧
    falsyStr (JsonBody.image_url {}) = true ∧
    process_image (some "k") (fun _ => []) (fun _ => "")
        (fun _ => ⟨true, 200, some "t", ""⟩) (.jsonBody {})
      = ⟨400, .err noImageMsg, [], none⟩ :=
  ⟨rfl, rfl,
    (process_image_bad_request (some "k") (fun _ => []) (fun _ => "")
      (fun _ => ⟨true, 200, some "t", ""⟩)).2.1 {} rfl rfl⟩

/-- C4 counterexample: the format parameter "GLB" is not one of glb, obj,
ply, yet the handler does not answer 400 (it lowercases first): with an
upstream reporting PENDING it answers 409 and does issue a remote status
call. -/
theorem get_result_format_counterexample :
    ¬ ("GLB" = "glb" ∨ "GLB" = "obj" ∨ "GLB" = "ply") ∧
    (get_result (some "k")
        (fun _ => ⟨true, 200, some "PENDING", none, none, none, ""⟩)
        (fun _ => []) (fun _ _ => .error "unsupported") "t" (some "GLB")).status
      = 409 ∧
    (get_result (some "k")
        (fun _ => ⟨true, 200, some "PENDING", none, none, none, ""⟩)
        (fun _ => []) (fun _ _ => .error "unsupported") "t" (some "GLB")).calls
      = [.statusCheck "t"] := by
  refine ⟨by decide, by decide, by decide⟩

/-- C4 (amended): for every request whose format parameter, after the
handler's defaulting (absent or empty becomes glb) and lowercasing, is not
one of glb, obj, ply, get_result answers 400 with the Unsupported format
body listing the allowed formats, and issues no remote call. -/
theorem get_result_bad_format (apiKey : Option String)
    (so : String → StatusResp) (fetch : String → List Nat)
    (convert : List Nat → String → Except String (List Nat))
    (taskId : String) (fmtParam : Option String)
    (h : allowed_formats.contains (normalize_format fmtParam) = false) :
    get_result apiKey so fetch convert taskId fmtParam
      = ⟨400, .errAllowed "Unsupported format" allowed_formats, []⟩ := by
  have h2 : ¬ (allowed_formats.contains (normalize_format fmtParam) = true) := by
    simp only [h]
    simp
  simp only [get_result]
  rw [if_pos h2]

/-- Witness for the amended C4 at format xyz. -/
theorem get_result_bad_format_witness :
    allowed_formats.contains (normalize_format (some "xyz")) = false ∧
    get_result (some "k")
        (fun _ => ⟨true, 200, some "PENDING", none, none, none, ""⟩)
        (fun _ => []) (fun _ _ => .error "unsupported") "t" (some "xyz")
      = ⟨400, .errAllowed "Unsupported format" allowed_formats, []⟩ :=
  ⟨by decide,
    get_result_bad_format (some "k")
      (fun _ => ⟨true, 200, some "PENDING", none, none, none, ""⟩)
      (fun _ => []) (fun _ _ => .error "unsupported") "t" (some "xyz")
      (by decide)⟩

/-- C5: with a supported format and the credential present, when the
upstream status call succeeds but reports a status other than SUCCEEDED,
get_result answers 409 with the Job-not-completed body carrying the
reported status, and fetches no model bytes (only the status call is
issued). -/
theorem get_result_not_ready (apiKey : Option String)
    (so : String → StatusResp) (fetch : String → List Nat)
    (convert : List Nat → String → Except String (List Nat))
    (taskId : String) (fmtParam : Option String)
    (hfmt : allowed_formats.contains (normalize_format fmtParam) = true)
    (hkey : keyMissing apiKey = false)
    (hok : (so taskId).ok = true)
    (hst : (so taskId).status ≠ some "SUCCEEDED") :
    get_result apiKey so fetch convert taskId fmtParam
      = ⟨409, .errStatus "Job not completed" (so taskId).status,
          [.statusCheck taskId]⟩ := by
  have hmem : normalize_format fmtParam ∈ allowed_formats := by
    simpa using hfmt
  simp [get_result, hmem, hkey, hok, hst]

/-- Witness for C5: format ply, upstream PENDING. -/
theorem get_result_not_ready_witness :
    allowed_formats.contains (normalize_format (some "ply")) = true ∧
    keyMissing (some "k") = false ∧
    get_result (some "k")
        (fun _ => ⟨true, 200, some "PENDING", none, none, none, ""⟩)
        (fun _ => []) (fun _ _ => .error "unsupported") "t" (some "ply")
      = ⟨409, .errStatus "Job not completed" (some "PENDING"),
          [.statusCheck "t"]⟩ :=
  ⟨by decide, by decide,
    get_result_not_ready (some "k")
      (fun _ => ⟨true, 200, some "PENDING", none, none, none, ""⟩)
      (fun _ => []) (fun _ _ => .error "unsupported") "t" (some "ply")
      (by decide) (by decide) (by decide) (by decide)⟩


theorem process_image_core_success (apiKey : Option String)
    (enc : List Nat → String) (create : MeshyPayload → CreateResp)
    (pbr remesh texture : Bool) (ai : String)
    (ib : Option (List Nat)) (du : Option String) (nm : Option String)
    (tid : String)
    (hne : ¬ (ib = none ∧ du = none))
    (hkey : keyMissing apiKey = false)
    (hok : ∀ p, (create p).ok = true)
    (hres : ∀ p, (create p).result = some tid)
    (htid : tid ≠ "") :
    ∃ p : MeshyPayload, p.ai_model = ai ∧ p.enable_pbr = pbr ∧
      p.should_remesh = remesh ∧ p.should_texture = texture ∧
      process_image_core apiKey enc create pbr remesh texture ai
          (some (ib, du, nm))
        = ⟨202, .task tid, [.createJob p],
            some ⟨tid, nm, pbr, remesh, texture, ai⟩⟩ := by
  rcases du with _ | u
  · rcases ib with _ | bs
    · exact absurd ⟨rfl, rfl⟩ hne
    · refine ⟨⟨"data:image/png;base64," ++ enc bs, pbr, remesh, texture, ai⟩,
        rfl, rfl, rfl, rfl, ?_⟩
      simp [process_image_core, hkey, hok, hres, htid]
  · refine ⟨⟨u, pbr, remesh, texture, ai⟩, rfl, rfl, rfl, rfl, ?_⟩
    simp [process_image_core, hkey, hok, hres, htid]

/-- C6: for every POST /api/process-image request body (multipart or
JSON), the ai_model option is read from the body with default latest, any
value outside latest / meshy-5 is silently replaced by latest, the
replaced value is what is forwarded in the upstream payload and stored in
the task metadata, and the job is still created with 202 when the rest of
the request is valid (an image source is present, the credential is set
and the upstream create succeeds with a task id). -/
theorem ai_model_fallback (apiKey : Option String)
    (dec : String → List Nat) (enc : List Nat → String)
    (create : MeshyPayload → CreateResp)
    (body : ReqBody) (v tid : String)
    (hv : raw_ai_model body = v)
    (hv1 : v ≠ "latest") (hv2 : v ≠ "meshy-5")
    (himg : ∃ ib du nm, parse_image dec body = some (ib, du, nm) ∧
        ¬ (ib = none ∧ du = none))
    (hkey : keyMissing apiKey = false)
    (hok : ∀ p, (create p).ok = true)
    (hres : ∀ p, (create p).result = some tid)
    (htid : tid ≠ "") :
    normalize_ai_model v = "latest" ∧
    (process_image apiKey dec enc create body).status = 202 ∧
    (∃ p : MeshyPayload,
        (process_image apiKey dec enc create body).calls = [.createJob p] ∧
        p.ai_model = "latest") ∧
    (∃ m : TaskMeta,
        (process_image apiKey dec enc create body).savedMeta = some m ∧
        m.ai_model = "latest") ∧
    (∀ j2 : JsonBody, j2.ai_model = none →
        normalize_ai_model (raw_ai_model (.jsonBody j2)) = "latest") ∧
    (∀ (file : Option UploadedFile) (f2 : FormBody), f2.ai_model = none →
        normalize_ai_model (raw_ai_model (.multipart file f2)) = "latest") := by
  have hnorm : normalize_ai_model v = "latest" := by
    simp [normalize_ai_model, hv1, hv2]
  have hai : normalize_ai_model (raw_ai_model body) = "latest" := by
    rw [hv]
    exact hnorm
  obtain ⟨ib, du, nm, hp, hne⟩ := himg
  obtain ⟨p, hpai, -, -, -, heq⟩ :=
    process_image_core_success apiKey enc create
      (get_flag body (fun x => x.enable_pbr) (fun f => f.enable_pbr))
      (get_flag body (fun x => x.should_remesh) (fun f => f.should_remesh))
      (get_flag body (fun x => x.should_texture) (fun f => f.should_texture))
      (normalize_ai_model (raw_ai_model body))
      ib du nm tid hne hkey hok hres htid
  have hmain : process_image apiKey dec enc create body
      = ⟨202, .task tid, [.createJob p],
          some ⟨tid, nm,
            get_flag body (fun x => x.enable_pbr) (fun f => f.enable_pbr),
            get_flag body (fun x => x.should_remesh) (fun f => f.should_remesh),
            get_flag body (fun x => x.should_texture) (fun f => f.should_texture),
            normalize_ai_model (raw_ai_model body)⟩⟩ := by
    rw [process_image, hp]
    exact heq
  refine ⟨hnorm, by rw [hmain], ⟨p, by rw [hmain], by rw [hpai, hai]⟩,
    ⟨_, by rw [hmain], by simpa using hai⟩, ?_, ?_⟩
  · intro j2 h2
    simp [raw_ai_model, h2, normalize_ai_model]
  · intro file f2 h2
    simp [raw_ai_model, h2, normalize_ai_model]

/-- Witness for C6: multipart upload with form field ai_model bogus. -/
theorem ai_model_fallback_witness :
    ("bogus" ≠ "latest" ∧ "bogus" ≠ "meshy-5" ∧
      keyMissing (some "k") = false ∧
      raw_ai_model (.multipart (some ⟨"a.png", [1, 2, 3]⟩)
        { ai_model := some "bogus" }) = "bogus") ∧
    (process_image (some "k") (fun _ => []) (fun _ => "E")
        (fun _ => ⟨true, 200, some "tid", ""⟩)
        (.multipart (some ⟨"a.png", [1, 2, 3]⟩)
          { ai_model := some "bogus" })).status = 202 ∧
    (∃ p : MeshyPayload,
        (process_image (some "k") (fun _ => []) (fun _ => "E")
          (fun _ => ⟨true, 200, some "tid", ""⟩)
          (.multipart (some ⟨"a.png", [1, 2, 3]⟩)
            { ai_model := some "bogus" })).calls = [.createJob p] ∧
        p.ai_model = "latest") ∧
    (∃ m : TaskMeta,
        (process_image (some "k") (fun _ => []) (fun _ => "E")
          (fun _ => ⟨true, 200, some "tid", ""⟩)
          (.multipart (some ⟨"a.png", [1, 2, 3]⟩)
            { ai_model := some "bogus" })).savedMeta = some m ∧
        m.ai_model = "latest") := by
  have h := ai_model_fallback (some "k") (fun _ => []) (fun _ => "E")
    (fun _ => ⟨true, 200, some "tid", ""⟩)
    (.multipart (some ⟨"a.png", [1, 2, 3]⟩) { ai_model := some "bogus" })
    "bogus" "tid" rfl (by decide) (by decide)
    ⟨some [1, 2, 3], none, some "a.png", by decide, by decide⟩
    (by decide) (fun _ => rfl) (fun _ => rfl) (by decide)
  exact ⟨⟨by decide, by decide, by decide, rfl⟩, h.2.1, h.2.2.1, h.2.2.2.1⟩

/-- C7: when the API credential is unset (or empty), each of the three
handlers that would reach the remote service answers 500 carrying the
configuration-error message and issues no remote call: process_image
(once an image source was supplied), get_status, and get_result (once the
format is acceptable). -/
theorem missing_key_500 (apiKey : Option String)
    (dec : String → List Nat) (enc : List Nat → String)
    (create : MeshyPayload → CreateResp)
    (so : String → StatusResp) (fetch : String → List Nat)
    (convert : List Nat → String → Except String (List Nat))
    (taskId : String) (fmtParam : Option String) (body : ReqBody)
    (ib : Option (List Nat)) (du : Option String) (nm : Option String)
    (hkey : keyMissing apiKey = true)
    (hp : parse_image dec body = some (ib, du, nm))
    (hne : ¬ (ib = none ∧ du = none))
    (hfmt : allowed_formats.contains (normalize_format fmtParam) = true) :
    process_image apiKey dec enc create body
      = ⟨500, .err missingKeyMsg, [], none⟩ ∧
    get_status apiKey so taskId = ⟨500, .err missingKeyMsg, []⟩ ∧
    get_result apiKey so fetch convert taskId fmtParam
      = ⟨500, .err missingKeyMsg, []⟩ := by
  have hmem : normalize_format fmtParam ∈ allowed_formats := by
    simpa using hfmt
  refine ⟨?_, ?_, ?_⟩
  · rw [process_image, hp]
    simp [process_image_core, hne, hkey]
  · simp [get_status, hkey]
  · simp [get_result, hmem, hkey]

/-- Witness for C7: no key, JSON request with a direct image URL,
format ply. -/
theorem missing_key_500_witness :
    keyMissing none = true ∧
    parse_image (fun _ => []) (.jsonBody { image_url := some "http://x" })
      = some (none, some "http://x", none) ∧
    process_image none (fun _ => []) (fun _ => "E")
        (fun _ => ⟨true, 200, some "tid", ""⟩)
        (.jsonBody { image_url := some "http://x" })
      = ⟨500, .err missingKeyMsg, [], none⟩ ∧
    get_status none (fun _ => ⟨true, 200, some "PENDING", none, none, none, ""⟩)
        "t" = ⟨500, .err missingKeyMsg, []⟩ ∧
    get_result none (fun _ => ⟨true, 200, some "PENDING", none, none, none, ""⟩)
        (fun _ => []) (fun _ _ => .error "unsupported") "t" (some "ply")
      = ⟨500, .err missingKeyMsg, []⟩ := by
  have h := missing_key_500 none (fun _ => []) (fun _ => "E")
    (fun _ => ⟨true, 200, some "tid", ""⟩)
    (fun _ => ⟨true, 200, some "PENDING", none, none, none, ""⟩)
    (fun _ => []) (fun _ _ => .error "unsupported") "t" (some "ply")
    (.jsonBody { image_url := some "http://x" })
    none (some "http://x") none
    rfl (by decide) (by decide) (by decide)
  exact ⟨rfl, by decide, h.1, h.2.1, h.2.2⟩


theorem process_image_core_calls_b64 (apiKey : Option String)
    (enc : List Nat → String) (create : MeshyPayload → CreateResp)
    (pbr remesh texture : Bool) (ai : String)
    (bs : List Nat) (nm : Option String)
    (hkey : keyMissing apiKey = false) :
    (process_image_core apiKey enc create pbr remesh texture ai
        (some (some bs, none, nm))).calls
      = [.createJob
          ⟨"data:image/png;base64," ++ enc bs, pbr, remesh, texture, ai⟩] := by
  rcases hcp : create ⟨"data:image/png;base64," ++ enc bs, pbr, remesh, texture, ai⟩
    with ⟨ok, sc, res, det⟩
  rcases ok with _ | _
  · simp [process_image_core, hkey, hcp]
  · rcases res with _ | tid
    · simp [process_image_core, hkey, hcp]
    · by_cases ht : tid = "" <;> simp [process_image_core, hkey, hcp, ht]

/-- C10: in a JSON request holding both a non-empty image_base64 and an
image_url, the base64 field wins: the handler behaves exactly as if
image_url were absent, the payload sent upstream carries a
data:image/png;base64 URI rebuilt from the decoded bytes, and the optional
prefix stripping drops everything up to and including the first comma. -/
theorem b64_precedence (apiKey : Option String)
    (dec : String → List Nat) (enc : List Nat → String)
    (create : MeshyPayload → CreateResp)
    (j : JsonBody) (s : String)
    (hb : j.image_base64 = some s) (hs : s ≠ "") :
    process_image apiKey dec enc create (.jsonBody j)
      = process_image apiKey dec enc create
          (.jsonBody { j with image_url := none }) ∧
    (keyMissing apiKey = false →
      ∃ p : MeshyPayload,
        (process_image apiKey dec enc create (.jsonBody j)).calls
          = [.createJob p] ∧
        p.image_url = "data:image/png;base64," ++ enc (dec (strip_b64 s))) ∧
    (',' ∈ s.data →
      ∃ pre : List Char,
        s.data = pre ++ ',' :: (strip_b64 s).data ∧ ',' ∉ pre) := by
  obtain ⟨b64f, urlf, pf, rf, tf, af⟩ := j
  simp only at hb
  subst hb
  refine ⟨?_, ?_, strip_b64_split s⟩
  · simp [process_image, parse_image, get_flag, raw_ai_model, falsyStr, hs]
  · intro hkey
    have hp : parse_image dec (.jsonBody ⟨some s, urlf, pf, rf, tf, af⟩)
        = some (some (dec (strip_b64 s)), none, none) := by
      simp [parse_image, falsyStr, hs]
    rw [process_image, hp]
    exact ⟨_, process_image_core_calls_b64 apiKey enc create _ _ _ _ _ _ hkey, rfl⟩

/-- Witness for C10: base64 with a data-URI prefix plus an image_url that
gets ignored. -/
theorem b64_precedence_witness :
    ("data:image/png;base64,AB" ≠ "" ∧ keyMissing (some "k") = false) ∧
    process_image (some "k") (fun t => t.data.map Char.toNat) (fun _ => "ENC")
        (fun _ => ⟨true, 200, some "tid", ""⟩)
        (.jsonBody ⟨some "data:image/png;base64,AB", some "http://ignored",
          none, none, none, none⟩)
      = process_image (some "k") (fun t => t.data.map Char.toNat) (fun _ => "ENC")
        (fun _ => ⟨true, 200, some "tid", ""⟩)
        (.jsonBody ⟨some "data:image/png;base64,AB", none,
          none, none, none, none⟩) ∧
    (∃ p : MeshyPayload,
        (process_image (some "k") (fun t => t.data.map Char.toNat) (fun _ => "ENC")
          (fun _ => ⟨true, 200, some "tid", ""⟩)
          (.jsonBody ⟨some "data:image/png;base64,AB", some "http://ignored",
            none, none, none, none⟩)).calls = [.createJob p] ∧
        p.image_url = "data:image/png;base64," ++
          (fun _ => "ENC") ((fun (t : String) => t.data.map Char.toNat)
            (strip_b64 "data:image/png;base64,AB"))) ∧
    (∃ pre : List Char,
        ("data:image/png;base64,AB").data
          = pre ++ ',' :: (strip_b64 "data:image/png;base64,AB").data ∧
        ',' ∉ pre) := by
  have h := b64_precedence (some "k") (fun t => t.data.map Char.toNat)
    (fun _ => "ENC") (fun _ => ⟨true, 200, some "tid", ""⟩)
    ⟨some "data:image/png;base64,AB", some "http://ignored",
      none, none, none, none⟩ "data:image/png;base64,AB" rfl (by decide)
  exact ⟨⟨by decide, by decide⟩, h.1, h.2.1 (by decide), h.2.2 (by decide)⟩

end Proxy
